import Mathlib

/-!
Shallow embedding of the kilo-editor snapshots (src/kilo.c and the earliest
snapshot src/unnamed/part_000) and proofs about the terminal-session
lifecycle, raw-mode derivation, geometry probe, render output and the
render-input loop.

Machine integers: the termios flag fields (tcflag_t) are 32-bit unsigned;
they are modelled as Nat together with explicit masking by 2^32 - 1 where
the C code applies bitwise complement.  The c_cc array is modelled by its
two indices the program touches, VMIN and VTIME.
-/

namespace Kilo

/-- Model of struct termios (src/kilo.c line 17): the four flag words and
the two control-character slots the program reads or writes (VMIN, VTIME). -/
structure Termios where
  c_iflag : Nat
  c_oflag : Nat
  c_cflag : Nat
  c_lflag : Nat
  cc_vmin : Nat
  cc_vtime : Nat
deriving DecidableEq, Repr

/-- Linux value of the BRKINT input flag. -/
def BRKINT : Nat := 2
/-- Linux value of the ICRNL input flag. -/
def ICRNL : Nat := 256
/-- Linux value of the INPCK input flag. -/
def INPCK : Nat := 16
/-- Linux value of the ISTRIP input flag. -/
def ISTRIP : Nat := 32
/-- Linux value of the IXON input flag. -/
def IXON : Nat := 1024
/-- Linux value of the OPOST output flag. -/
def OPOST : Nat := 1
/-- Linux value of the CS8 character-size mask. -/
def CS8 : Nat := 48
/-- Linux value of the ECHO local flag. -/
def ECHO : Nat := 8
/-- Linux value of the ICANON local flag. -/
def ICANON : Nat := 2
/-- Linux value of the ISIG local flag. -/
def ISIG : Nat := 1
/-- Linux value of the IEXTEN local flag. -/
def IEXTEN : Nat := 32768

/-- All-ones mask of the 32-bit tcflag_t word. -/
def TCFLAG_ONES : Nat := 2 ^ 32 - 1

/-- Bitwise complement on a 32-bit tcflag_t word, as produced by the C
operator ~ applied to a flag mask. -/
def tcflagNot (m : Nat) : Nat := m ^^^ TCFLAG_ONES

/-- The mask cleared from c_iflag at src/kilo.c line 73. -/
def iflagMask : Nat := BRKINT ||| ICRNL ||| INPCK ||| ISTRIP ||| IXON

/-- The mask cleared from c_lflag at src/kilo.c line 118. -/
def lflagMask : Nat := ECHO ||| ICANON ||| IEXTEN ||| ISIG

/-- The raw configuration derived from a captured termios by enableRawMode
(src/kilo.c lines 47-139): struct termios raw = E.origin_termios, then the
flag mutations and the VMIN/VTIME assignments, in source order. -/
def rawOf (t : Termios) : Termios :=
  { c_iflag := t.c_iflag &&& tcflagNot iflagMask
  , c_oflag := t.c_oflag &&& tcflagNot OPOST
  , c_cflag := t.c_cflag ||| CS8
  , c_lflag := t.c_lflag &&& tcflagNot lflagMask
  , cc_vmin := 0
  , cc_vtime := 1 }

/-- The mutable session data relevant to raw-mode entry and restore: the
attributes currently applied to the terminal device, and the global
E.origin_termios field (src/kilo.c lines 17, 20). -/
structure SessionSt where
  terminal : Termios
  origin_termios : Termios
deriving DecidableEq, Repr

/-- Success path of enableRawMode (src/kilo.c lines 36-152): tcgetattr
captures the device attributes into E.origin_termios, a raw configuration
is derived on the local copy, and tcsetattr applies it to the device. -/
def enableRawModeSt (s : SessionSt) : SessionSt :=
  { terminal := rawOf s.terminal, origin_termios := s.terminal }

/-- Success path of disableRawMode (src/kilo.c lines 31-34): tcsetattr
reapplies E.origin_termios to the device. -/
def disableRawModeSt (s : SessionSt) : SessionSt :=
  { s with terminal := s.origin_termios }

/-- The four bytes the string literal at src/kilo.c lines 24 and 201
actually contains: ESC, open bracket, the digit 2, lowercase j (0x6A). -/
def escClearLower : List Nat := [27, 91, 50, 106]

/-- The four bytes written on the quit path at src/kilo.c line 215:
ESC, open bracket, the digit 2, uppercase J (0x4A). -/
def escClearUpper : List Nat := [27, 91, 50, 74]

/-- The three bytes of the cursor-home sequence ESC [ H. -/
def escHome : List Nat := [27, 91, 72]

/-- The three bytes of one row-marker write at src/kilo.c line 196:
tilde, carriage return, line feed. -/
def rowMarker : List Nat := [126, 13, 10]

/-- Bytes written by editorDrawRows (src/kilo.c lines 193-198): one
row-marker write per value of y from 0 to E.screenrows - 1. -/
def editorDrawRows (screenrows : Nat) : List Nat :=
  (List.replicate screenrows rowMarker).flatten

/-- Bytes written by editorRefreshScreen (src/kilo.c lines 200-207):
the literal from line 201 (ESC [ 2 j, lowercase), ESC [ H, the rows,
and a final ESC [ H. -/
def editorRefreshScreen (screenrows : Nat) : List Nat :=
  escClearLower ++ escHome ++ editorDrawRows screenrows ++ escHome

/-- Render output as the claim describes it: clear-entire-screen ESC [ 2 J
(uppercase), cursor home, the row markers, cursor home.  Stated from the
words of the spec for comparison with editorRefreshScreen. -/
def claimedRenderOutput (screenrows : Nat) : List Nat :=
  escClearUpper ++ escHome ++ (List.replicate screenrows rowMarker).flatten ++ escHome

/-- Result of one single-byte read call from standard input: one byte
(return value 1), a 100 ms timeout with nothing available (return value 0),
or an error (return value -1). -/
inductive RdRes where
  | byte (b : Nat)
  | timedOut
  | errored
deriving DecidableEq, Repr

/-- Loop body of editorReadKey (src/kilo.c lines 154-164).  The C loop
continues WHILE read returns 1, overwriting the local c each time, and
falls out on the first read that does not return 1; the error check in the
body is unreachable because the body only runs when nread equals 1.  First
component: the value of c when the loop exits (none models the local c
never having been assigned, i.e. still uninitialized); second component:
how many read calls were performed. -/
def readKeyLoop : List RdRes → Option Nat → Nat → Option Nat × Nat
  | RdRes.byte b :: rest, _, n => readKeyLoop rest (some b) (n + 1)
  | _ :: _, c, n => (c, n + 1)
  | [], c, n => (c, n)

/-- One invocation of editorReadKey on the given sequence of read results. -/
def editorReadKey (reads : List RdRes) : Option Nat × Nat :=
  readKeyLoop reads none 0

/-- CTRL_KEY macro (src/kilo.c line 11). -/
def CTRL_KEY (k : Nat) : Nat := k &&& 31

/-- Dispatch half of editorProcessKeypress (src/kilo.c lines 213-219),
given the byte value returned by editorReadKey: the bytes it writes to
standard output and, when it calls exit, the requested status. -/
def keypressDispatch (c : Nat) : List Nat × Option Nat :=
  if c = CTRL_KEY 113 then (escClearUpper ++ escHome, some 0) else ([], none)

/-- Result of getWindowSize (src/kilo.c lines 166-190) as a function of the
ioctl outcome (none models ioctl returning -1; some (ws_row, ws_col) models
success).  The function fails, returning -1 in C and none here, when ioctl
fails or ws_col is 0; otherwise it passes (ws_row, ws_col) back. -/
def getWindowSize (ioctlRes : Option (Nat × Nat)) : Option (Nat × Nat) :=
  match ioctlRes with
  | none => none
  | some (r, c) => if c = 0 then none else some (r, c)

/-- String arguments the program passes to die. -/
inductive DieMsg where
  | tcgetattrMsg
  | tcsetattrMsg
  | getWindowSizeMsg
deriving DecidableEq, Repr

/-- Observable process events: terminal-attribute syscalls with their
outcome, the window-size ioctl, writes to standard output, perror output
on standard error, and process termination with a status. -/
inductive Ev where
  | evTcgetattr (ok : Bool)
  | evTcsetattr (t : Termios) (ok : Bool)
  | evIoctl (res : Option (Nat × Nat))
  | evWrite (bytes : List Nat)
  | evPerror (msg : DieMsg)
  | evExit (status : Nat)
deriving DecidableEq, Repr

/-- Events emitted by die (src/kilo.c lines 23-29) before it calls exit(1):
the two writes (the first being the lowercase ESC [ 2 j literal from line
24) and the perror diagnostic. -/
def dieEvents (s : DieMsg) : List Ev :=
  [Ev.evWrite escClearLower, Ev.evWrite escHome, Ev.evPerror s]

/-- Events and final status of process exit once the atexit handler is
registered: exit runs disableRawMode, which calls
tcsetattr(STDIN_FILENO, TCSAFLUSH, origin); if that fails disableRawMode
calls die("tcsetattr"), which emits its diagnostic and terminates the
process with status 1 instead of the requested status. -/
def exitRun (origin : Termios) (restoreOk : Bool) (status : Nat) : List Ev × Nat :=
  if restoreOk then
    ([Ev.evTcsetattr origin true, Ev.evExit status], status)
  else
    ([Ev.evTcsetattr origin false] ++ dieEvents DieMsg.tcsetattrMsg ++ [Ev.evExit 1], 1)

/-- Events of one editorRefreshScreen call, one event per write call. -/
def refreshEvents (screenrows : Nat) : List Ev :=
  [Ev.evWrite escClearLower, Ev.evWrite escHome] ++
    List.replicate screenrows (Ev.evWrite rowMarker) ++ [Ev.evWrite escHome]

/-- Whether the run is over.  running means the modelled input was
exhausted with the while(1) loop still going. -/
inductive Outcome where
  | exited (status : Nat)
  | running
deriving DecidableEq, Repr

/-- Environment of one process run: the attributes the terminal has before
the program starts, the outcomes of the tcgetattr, raw tcsetattr and
restore tcsetattr calls, the ioctl outcome, and the read results each
editorReadKey invocation sees. -/
structure Env where
  initTermios : Termios
  tcgetattrOk : Bool
  tcsetattrRawOk : Bool
  restoreOk : Bool
  ioctlRes : Option (Nat × Nat)
  input : List (List RdRes)
deriving Repr

/-- The while(1) loop of main (src/kilo.c lines 237-241): each iteration
refreshes the screen then processes one keypress; the quit byte 0x11
writes clear and home and calls exit(0), any other result leaves the loop
running with no further action. -/
def loopRun (restoreOk : Bool) (origin : Termios) (screenrows : Nat) :
    List (List RdRes) → List Ev × Outcome
  | [] => ([], Outcome.running)
  | reads :: rest =>
    if (editorReadKey reads).1 = some (CTRL_KEY 113) then
      let e := exitRun origin restoreOk 0
      (refreshEvents screenrows ++
        [Ev.evWrite escClearUpper, Ev.evWrite escHome] ++ e.1,
       Outcome.exited e.2)
    else
      let r := loopRun restoreOk origin screenrows rest
      (refreshEvents screenrows ++ r.1, r.2)

/-- Whole-process run of main (src/kilo.c lines 228-243): enableRawMode
(tcgetattr, atexit registration, tcsetattr of the derived raw attributes,
dying on either syscall failure), then initEditor (getWindowSize, dying on
failure), then the render-input loop.  die called before the atexit
registration exits without the restore; die called after it, and the quit
path, go through exitRun. -/
def main (env : Env) : List Ev × Outcome :=
  if env.tcgetattrOk then
    let origin := env.initTermios
    let raw := rawOf origin
    if env.tcsetattrRawOk then
      match getWindowSize env.ioctlRes with
      | none =>
        let e := exitRun origin env.restoreOk 1
        ([Ev.evTcgetattr true, Ev.evTcsetattr raw true, Ev.evIoctl env.ioctlRes] ++
          dieEvents DieMsg.getWindowSizeMsg ++ e.1,
         Outcome.exited e.2)
      | some (r, _c) =>
        let l := loopRun env.restoreOk origin r env.input
        ([Ev.evTcgetattr true, Ev.evTcsetattr raw true, Ev.evIoctl env.ioctlRes] ++ l.1,
         l.2)
    else
      let e := exitRun origin env.restoreOk 1
      ([Ev.evTcgetattr true, Ev.evTcsetattr raw false] ++
        dieEvents DieMsg.tcsetattrMsg ++ e.1,
       Outcome.exited e.2)
  else
    ([Ev.evTcgetattr false] ++ dieEvents DieMsg.tcgetattrMsg ++ [Ev.evExit 1],
     Outcome.exited 1)

/-- Terminal attributes in effect after a list of events, starting from
the given initial attributes: each successful tcsetattr replaces them. -/
def termAfter (init : Termios) : List Ev → Termios
  | [] => init
  | Ev.evTcsetattr t true :: rest => termAfter t rest
  | _ :: rest => termAfter init rest

/-- Read loop of main in the earliest snapshot (src/unnamed/part_000 lines
25-26): while (read(STDIN_FILENO, the byte, 1) == 1 and the byte is not q)
keep reading, then return 0.  Each element is the outcome of one read
(some b when read returned 1 with byte b, none when it did not return one
byte).  Returns some status when the loop exits within the modelled reads,
none when the modelled reads were exhausted with the loop still going. -/
def mainV0 : List (Option Nat) → Option Nat
  | [] => none
  | none :: _ => some 0
  | some b :: rest => if b = 113 then some 0 else mainV0 rest

/-- Example of ordinary cooked-mode attributes: IXON, OPOST, CS8, ECHO set,
VMIN 1, VTIME 0.  Raw-mode derivation changes it. -/
def cookedT : Termios := ⟨1024, 1, 48, 8, 1, 0⟩

/-- Run environment: everything succeeds, the terminal is 2 rows wide
enough, and the first keypress is Ctrl-Q. -/
def quitEnv : Env :=
  { initTermios := cookedT
  , tcgetattrOk := true, tcsetattrRawOk := true, restoreOk := true
  , ioctlRes := some (2, 80)
  , input := [[RdRes.byte 17, RdRes.timedOut]] }

/-- Run environment in which ioctl succeeds but reports zero columns. -/
def zeroColEnv : Env :=
  { initTermios := cookedT
  , tcgetattrOk := true, tcsetattrRawOk := true, restoreOk := true
  , ioctlRes := some (24, 0)
  , input := [] }

/-- Run environment in which the window-size ioctl fails outright. -/
def gwFailEnv : Env :=
  { initTermios := cookedT
  , tcgetattrOk := true, tcsetattrRawOk := true, restoreOk := true
  , ioctlRes := none
  , input := [] }

/-- Run environment in which the exit-time restore tcsetattr fails while
the user quits with Ctrl-Q. -/
def restoreFailEnv : Env :=
  { initTermios := cookedT
  , tcgetattrOk := true, tcsetattrRawOk := true, restoreOk := false
  , ioctlRes := some (2, 80)
  , input := [[RdRes.byte 17]] }

/-- Shape of the exit-processing trace: it opens with the restore
tcsetattr of the captured original attributes and closes with the
termination event carrying the final status. -/
lemma exitRun_fst (o : Termios) (ok : Bool) (st : Nat) :
    (exitRun o ok st).1 =
      Ev.evTcsetattr o ok ::
        ((if ok then [] else dieEvents DieMsg.tcsetattrMsg) ++
          [Ev.evExit (exitRun o ok st).2]) := by
  cases ok <;> simp [exitRun, dieEvents]

/-- When the render-input loop terminates, its trace ends with the
exit-processing trace for requested status 0 and its status is the one
exit processing produces. -/
lemma loopRun_exited (rOk : Bool) (o : Termios) (rows : Nat) :
    ∀ invs st, (loopRun rOk o rows invs).2 = Outcome.exited st →
      ∃ p, (loopRun rOk o rows invs).1 = p ++ (exitRun o rOk 0).1 ∧
        st = (exitRun o rOk 0).2 := by
  intro invs
  induction invs with
  | nil => intro st h; simp [loopRun] at h
  | cons reads rest ih =>
    intro st h
    by_cases hq : (editorReadKey reads).1 = some (CTRL_KEY 113)
    · refine ⟨refreshEvents rows ++ [Ev.evWrite escClearUpper, Ev.evWrite escHome], ?_, ?_⟩
      · simp [loopRun, hq]
      · simp [loopRun, hq] at h
        exact h.symm
    · simp only [loopRun, hq, if_false] at h ⊢
      obtain ⟨p, hp, hst⟩ := ih st h
      exact ⟨refreshEvents rows ++ p, by simp [hp], hst⟩

/-- Claim C1: after raw mode has been successfully entered (tcgetattr and
the raw tcsetattr both succeeded, which is when the atexit handler is
armed and raw mode applied), every terminating run reapplies the captured
original terminal attributes before the process-termination event: the
trace decomposes as a prefix, the restore tcsetattr of the original
attributes, and a tail ending in the termination event.  This covers the
explicit quit exit with status 0 and every fatal die exit with status 1;
a normal return from main is unreachable behind the while(1) loop and is
covered vacuously. -/
theorem C1_restore_on_every_exit (env : Env)
    (hg : env.tcgetattrOk = true) (hs : env.tcsetattrRawOk = true)
    (st : Nat) (hx : (main env).2 = Outcome.exited st) :
    ∃ p b q st2, (main env).1 =
      p ++ Ev.evTcsetattr env.initTermios b :: (q ++ [Ev.evExit st2]) := by
  rcases hgw : getWindowSize env.ioctlRes with _ | ⟨r, c⟩
  · refine ⟨[Ev.evTcgetattr true, Ev.evTcsetattr (rawOf env.initTermios) true,
        Ev.evIoctl env.ioctlRes] ++ dieEvents DieMsg.getWindowSizeMsg,
      env.restoreOk, if env.restoreOk then [] else dieEvents DieMsg.tcsetattrMsg,
      (exitRun env.initTermios env.restoreOk 1).2, ?_⟩
    simp only [main, hg, hs, hgw, if_true]
    rw [exitRun_fst]
  · have hloop :
        (loopRun env.restoreOk env.initTermios r env.input).2 = Outcome.exited st := by
      simpa [main, hg, hs, hgw] using hx
    obtain ⟨p, hp, _⟩ :=
      loopRun_exited env.restoreOk env.initTermios r env.input st hloop
    refine ⟨[Ev.evTcgetattr true, Ev.evTcsetattr (rawOf env.initTermios) true,
        Ev.evIoctl env.ioctlRes] ++ p,
      env.restoreOk, if env.restoreOk then [] else dieEvents DieMsg.tcsetattrMsg,
      (exitRun env.initTermios env.restoreOk 0).2, ?_⟩
    simp only [main, hg, hs, hgw, if_true]
    rw [hp, exitRun_fst]
    simp

/-- Witness for C1 at a concrete run: everything succeeds and the first
keypress is Ctrl-Q, so the run terminates and the restore decomposition
exists. -/
theorem C1_restore_on_every_exit_witness :
    quitEnv.tcgetattrOk = true ∧ quitEnv.tcsetattrRawOk = true ∧
      (main quitEnv).2 = Outcome.exited 0 ∧
      (∃ p b q st2, (main quitEnv).1 =
        p ++ Ev.evTcsetattr quitEnv.initTermios b :: (q ++ [Ev.evExit st2])) :=
  ⟨rfl, rfl, by decide,
    C1_restore_on_every_exit quitEnv rfl rfl 0 (by decide)⟩

/-- Claim C2: entering raw mode and then restoring leaves the terminal
attribute structure equal to the configuration captured before entry; the
captured original attributes (E.origin_termios) equal that configuration
after entry and are not mutated by the restore, since the raw
configuration is derived on a local copy. -/
theorem C2_enable_disable_roundtrip (t o : Termios) :
    (disableRawModeSt (enableRawModeSt ⟨t, o⟩)).terminal = t ∧
      (enableRawModeSt ⟨t, o⟩).origin_termios = t ∧
      (disableRawModeSt (enableRawModeSt ⟨t, o⟩)).origin_termios =
        (enableRawModeSt ⟨t, o⟩).origin_termios :=
  ⟨rfl, rfl, rfl⟩

/-- Counterexample to claim C3: with a terminal whose attributes change
under the raw derivation and an ioctl reporting zero columns, the trace up
to the getWindowSize diagnostic already contains the successful raw
tcsetattr — main calls enableRawMode before initEditor — and the terminal
attributes in effect at the moment of that failure are the raw ones, not
the original configuration. -/
theorem C3_counterexample :
    (main zeroColEnv).1.take 6 =
      [Ev.evTcgetattr true, Ev.evTcsetattr (rawOf cookedT) true,
       Ev.evIoctl (some (24, 0)), Ev.evWrite escClearLower, Ev.evWrite escHome,
       Ev.evPerror DieMsg.getWindowSizeMsg] ∧
      Ev.evTcsetattr (rawOf cookedT) true ∈ (main zeroColEnv).1.take 5 ∧
      termAfter cookedT ((main zeroColEnv).1.take 5) ≠ cookedT := by
  decide

/-- Claim C3 as amended: if the geometry query reports zero columns,
startup fails through the fatal path (the getWindowSize diagnostic and
exit status 1), but this happens after raw mode has already been applied:
the failing trace splits at the diagnostic, and the prefix before it
contains the successful raw tcsetattr, with the raw attributes in effect
at that moment. -/
theorem C3_zero_cols_fails_after_raw_entry (env : Env) (r : Nat)
    (hg : env.tcgetattrOk = true) (hs : env.tcsetattrRawOk = true)
    (hio : env.ioctlRes = some (r, 0)) :
    (main env).2 = Outcome.exited 1 ∧
      ∃ p q, (main env).1 = p ++ Ev.evPerror DieMsg.getWindowSizeMsg :: q ∧
        Ev.evTcsetattr (rawOf env.initTermios) true ∈ p ∧
        termAfter env.initTermios p = rawOf env.initTermios := by
  have hgw : getWindowSize env.ioctlRes = none := by simp [getWindowSize, hio]
  constructor
  · cases hr : env.restoreOk <;> simp [main, hg, hs, hgw, exitRun, hr]
  · refine ⟨[Ev.evTcgetattr true, Ev.evTcsetattr (rawOf env.initTermios) true,
      Ev.evIoctl env.ioctlRes, Ev.evWrite escClearLower, Ev.evWrite escHome],
      (exitRun env.initTermios env.restoreOk 1).1, ?_, ?_, ?_⟩
    · simp [main, hg, hs, hgw, dieEvents]
    · simp
    · simp [termAfter]

/-- Witness for the amended C3 at the concrete zero-column environment. -/
theorem C3_zero_cols_fails_after_raw_entry_witness :
    zeroColEnv.tcgetattrOk = true ∧ zeroColEnv.tcsetattrRawOk = true ∧
      zeroColEnv.ioctlRes = some (24, 0) ∧
      (main zeroColEnv).2 = Outcome.exited 1 :=
  ⟨rfl, rfl, rfl,
    (C3_zero_cols_fails_after_raw_entry zeroColEnv 24 rfl rfl rfl).1⟩

/-- Claim C4, evaluated where the code diverges from it: the editorReadKey
loop runs WHILE read returns one byte, so an input step that sees bytes
0x61 and 0x62 and then a timeout performs three reads, discards 0x61 and
returns 0x62 (the claim requires exactly one read), and a step whose first
read times out performs one read and falls out with the local c still
unassigned (none), not a defined no-command result. -/
theorem C4_readKey_loops_while_reads_succeed :
    editorReadKey [RdRes.byte 97, RdRes.byte 98, RdRes.timedOut] = (some 98, 3) ∧
      editorReadKey [RdRes.timedOut] = (none, 1) ∧
      editorReadKey [RdRes.errored] = (none, 1) := by
  decide

/-- Claim C5, evaluated where the code diverges from it: the render prefix
written by editorRefreshScreen is the four bytes ESC [ 2 j — lowercase j,
0x6A, from the literal at src/kilo.c line 201 — not the clear-entire-screen
sequence ESC [ 2 J the claim states; everything after those four bytes
matches the claimed shape (home, one row marker per row, home). -/
theorem C5_render_prefix_is_lowercase_j :
    editorRefreshScreen 24 ≠ claimedRenderOutput 24 ∧
      (editorRefreshScreen 24).take 4 = [27, 91, 50, 106] ∧
      (claimedRenderOutput 24).take 4 = [27, 91, 50, 74] ∧
      (editorRefreshScreen 24).drop 4 = (claimedRenderOutput 24).drop 4 := by
  decide

/-- Masking a 32-bit word with the complement of a 32-bit mask clears
exactly the bits of the mask and leaves every other bit unchanged. -/
lemma testBit_land_tcflagNot (x m i : Nat) (hx : x < 2 ^ 32) (hm : m < 2 ^ 32) :
    (x &&& tcflagNot m).testBit i = (x.testBit i && !(m.testBit i)) := by
  have hones : ∀ j, TCFLAG_ONES.testBit j = decide (j < 32) := fun j =>
    Nat.testBit_two_pow_sub_one 32 j
  by_cases h : i < 32
  · simp [tcflagNot, Nat.testBit_land, Nat.testBit_xor, hones, h]
  · have h32 : (32 : Nat) ≤ i := by omega
    have hpow : (2 : Nat) ^ 32 ≤ 2 ^ i := Nat.pow_le_pow_right (by omega) h32
    have hxi : x.testBit i = false :=
      Nat.testBit_lt_two_pow (lt_of_lt_of_le hx hpow)
    have hmi : m.testBit i = false :=
      Nat.testBit_lt_two_pow (lt_of_lt_of_le hm hpow)
    simp [tcflagNot, Nat.testBit_land, Nat.testBit_xor, hones, h, hxi, hmi]

/-- Claim C6: keypress dispatch recognises exactly Ctrl-Q.  On the byte
0x11 it emits the screen-clear (the uppercase ESC [ 2 J literal of the
quit path) and cursor-home sequences and requests exit with status 0;
every other byte value is a no-op — the dispatch writes nothing, requests
no exit, and the render-input loop proceeds to its next iteration. -/
theorem C6_dispatch_recognises_only_ctrl_q (c : Nat) (_hc : c < 256) (hne : c ≠ 17) :
    keypressDispatch 17 = (escClearUpper ++ escHome, some 0) ∧
      keypressDispatch c = ([], none) ∧
      ∀ rOk o rows rest reads, (editorReadKey reads).1 = some c →
        loopRun rOk o rows (reads :: rest) =
          (refreshEvents rows ++ (loopRun rOk o rows rest).1,
           (loopRun rOk o rows rest).2) := by
  have h17 : CTRL_KEY 113 = 17 := by decide
  refine ⟨by simp [keypressDispatch, h17], ?_, ?_⟩
  · simp [keypressDispatch, h17, hne]
  · intro rOk o rows rest reads hr
    simp [loopRun, hr, h17, hne]

/-- Witness for C6 at the concrete non-quit byte 0x41 and at 0x11. -/
theorem C6_dispatch_recognises_only_ctrl_q_witness :
    (65 : Nat) < 256 ∧ (65 : Nat) ≠ 17 ∧ keypressDispatch 65 = ([], none) ∧
      keypressDispatch 17 = (escClearUpper ++ escHome, some 0) :=
  ⟨by decide, by decide,
    (C6_dispatch_recognises_only_ctrl_q 65 (by decide) (by decide)).2.1,
    (C6_dispatch_recognises_only_ctrl_q 65 (by decide) (by decide)).1⟩

/-- Claim C7: the raw configuration clears exactly the flags BRKINT,
ICRNL, INPCK, ISTRIP, IXON from c_iflag, OPOST from c_oflag and ECHO,
ICANON, IEXTEN, ISIG from c_lflag — every bit outside those masks is
unchanged — sets the CS8 character-size bits in c_cflag, and sets VMIN to
0 and VTIME to 1 tenth of a second (the 100 ms timeout). -/
theorem C7_raw_configuration (t : Termios)
    (hi : t.c_iflag < 2 ^ 32) (ho : t.c_oflag < 2 ^ 32) (hl : t.c_lflag < 2 ^ 32) :
    (∀ i, ((rawOf t).c_iflag).testBit i =
        (t.c_iflag.testBit i &&
          !((BRKINT ||| ICRNL ||| INPCK ||| ISTRIP ||| IXON).testBit i))) ∧
      (∀ i, ((rawOf t).c_oflag).testBit i =
        (t.c_oflag.testBit i && !(OPOST.testBit i))) ∧
      (∀ i, ((rawOf t).c_lflag).testBit i =
        (t.c_lflag.testBit i &&
          !((ECHO ||| ICANON ||| IEXTEN ||| ISIG).testBit i))) ∧
      (∀ i, ((rawOf t).c_cflag).testBit i =
        (t.c_cflag.testBit i || CS8.testBit i)) ∧
      (rawOf t).cc_vmin = 0 ∧ (rawOf t).cc_vtime = 1 := by
  refine ⟨fun i => ?_, fun i => ?_, fun i => ?_, fun i => ?_, rfl, rfl⟩
  · exact testBit_land_tcflagNot t.c_iflag iflagMask i hi (by decide)
  · exact testBit_land_tcflagNot t.c_oflag OPOST i ho (by decide)
  · exact testBit_land_tcflagNot t.c_lflag lflagMask i hl (by decide)
  · exact Nat.testBit_lor t.c_cflag CS8 i

/-- Witness for C7 at the concrete cooked-mode attributes. -/
theorem C7_raw_configuration_witness :
    cookedT.c_iflag < 2 ^ 32 ∧ cookedT.c_oflag < 2 ^ 32 ∧
      cookedT.c_lflag < 2 ^ 32 ∧
      (rawOf cookedT).cc_vmin = 0 ∧ (rawOf cookedT).cc_vtime = 1 :=
  ⟨by decide, by decide, by decide,
    (C7_raw_configuration cookedT (by decide) (by decide) (by decide)).2.2.2.2⟩

/-- Counterexample to claim C8: when ioctl succeeds reporting 0 rows and
80 columns, getWindowSize succeeds and passes the pair back unchanged, so
the reported rows value 0 is not a positive integer. -/
theorem C8_counterexample :
    ¬ (∀ r c, getWindowSize (some (0, 80)) = some (r, c) → 0 < r ∧ 0 < c) :=
  fun h => absurd (h 0 80 (by decide)).1 (by decide)

/-- Claim C8 as amended: on success the dimensions query returns a
positive column count, but the row count is passed through unvalidated
and may be 0; it reports failure exactly when the window-size syscall
fails or reports zero columns; and that failure is fatal to startup — the
process emits the getWindowSize diagnostic and terminates with status 1. -/
theorem C8_cols_positive_rows_unchecked (res : Option (Nat × Nat)) (env : Env) :
    (∀ r c, getWindowSize res = some (r, c) → 0 < c) ∧
      (getWindowSize res = none ↔ res = none ∨ ∃ r, res = some (r, 0)) ∧
      (env.tcgetattrOk = true → env.tcsetattrRawOk = true →
        getWindowSize env.ioctlRes = none →
        (main env).2 = Outcome.exited 1 ∧
          Ev.evPerror DieMsg.getWindowSizeMsg ∈ (main env).1) := by
  refine ⟨?_, ?_, ?_⟩
  · intro r c h
    rcases res with _ | ⟨r2, c2⟩
    · simp [getWindowSize] at h
    · by_cases hc : c2 = 0
      · simp [getWindowSize, hc] at h
      · simp [getWindowSize, hc] at h
        omega
  · rcases res with _ | ⟨r2, c2⟩
    · simp [getWindowSize]
    · by_cases hc : c2 = 0 <;> simp [getWindowSize, hc]
  · intro hg hs hgw
    constructor
    · cases hr : env.restoreOk <;> simp [main, hg, hs, hgw, exitRun, hr]
    · cases hr : env.restoreOk <;>
        simp [main, hg, hs, hgw, exitRun, dieEvents, hr]

/-- Witness for the amended C8: a 24 by 80 probe yields positive columns,
and the concrete failing-ioctl run exits with status 1. -/
theorem C8_cols_positive_rows_unchecked_witness :
    (0 : Nat) < 80 ∧ (main gwFailEnv).2 = Outcome.exited 1 :=
  ⟨(C8_cols_positive_rows_unchecked (some (24, 80)) gwFailEnv).1 24 80 (by decide),
    ((C8_cols_positive_rows_unchecked (some (24, 80)) gwFailEnv).2.2 rfl rfl
      (by decide)).1⟩

/-- Counterexample to claim C9: in a run where the user quits with Ctrl-Q
(requested exit status 0) but the restore tcsetattr fails, the failure is
escalated through the fatal path die, not swallowed: the trace carries the
tcsetattr diagnostic and the die clear-screen write, and the process exits
with status 1 instead of the quit status 0. -/
theorem C9_counterexample :
    (main restoreFailEnv).2 = Outcome.exited 1 ∧
      Ev.evPerror DieMsg.tcsetattrMsg ∈ (main restoreFailEnv).1 ∧
      Ev.evWrite escClearLower ∈ (main restoreFailEnv).1 := by
  decide

/-- Claim C9 as amended: when the restore operation fails during exit
processing, disableRawMode escalates the failure through die — the
diagnostic is emitted and the process terminates with status 1, whatever
status was requested — but the failure still does not prevent the process
from terminating. -/
theorem C9_restore_failure_escalates (env : Env)
    (hg : env.tcgetattrOk = true) (hs : env.tcsetattrRawOk = true)
    (hr : env.restoreOk = false) (st : Nat)
    (hx : (main env).2 = Outcome.exited st) :
    st = 1 ∧ Ev.evPerror DieMsg.tcsetattrMsg ∈ (main env).1 ∧
      Ev.evExit 1 ∈ (main env).1 := by
  rcases hgw : getWindowSize env.ioctlRes with _ | ⟨r, c⟩
  · refine ⟨?_, ?_, ?_⟩
    · have h1 : 1 = st := by simpa [main, hg, hs, hgw, exitRun, hr] using hx
      exact h1.symm
    · simp [main, hg, hs, hgw, exitRun, dieEvents, hr]
    · simp [main, hg, hs, hgw, exitRun, dieEvents, hr]
  · have hloop :
        (loopRun env.restoreOk env.initTermios r env.input).2 = Outcome.exited st := by
      simpa [main, hg, hs, hgw] using hx
    obtain ⟨p, hp, hst⟩ :=
      loopRun_exited env.restoreOk env.initTermios r env.input st hloop
    rw [hr] at hp hst
    refine ⟨by rw [hst]; simp [exitRun], ?_, ?_⟩
    · simp [main, hg, hs, hgw, hr, hp, exitRun, dieEvents]
    · simp [main, hg, hs, hgw, hr, hp, exitRun, dieEvents]

/-- Witness for the amended C9 at the concrete restore-failure run. -/
theorem C9_restore_failure_escalates_witness :
    restoreFailEnv.restoreOk = false ∧
      (main restoreFailEnv).2 = Outcome.exited 1 ∧
      Ev.evPerror DieMsg.tcsetattrMsg ∈ (main restoreFailEnv).1 :=
  ⟨rfl, by decide,
    (C9_restore_failure_escalates restoreFailEnv rfl rfl rfl 1 (by decide)).2.1⟩

/-- Claim C10: in the earliest snapshot the loop exits as soon as a read
fails to return one byte or returns the byte q (0x71), and in every such
case main returns status 0; any other byte keeps the loop reading. -/
theorem C10_earliest_loop (b : Nat) (hb : b ≠ 113) (rest : List (Option Nat)) :
    (∀ r2, mainV0 (none :: r2) = some 0) ∧
      (∀ r2, mainV0 (some 113 :: r2) = some 0) ∧
      mainV0 (some b :: rest) = mainV0 rest ∧
      (∀ reads s, mainV0 reads = some s → s = 0) := by
  refine ⟨fun r2 => rfl, fun r2 => by simp [mainV0], ?_, ?_⟩
  · simp [mainV0, hb]
  · intro reads
    induction reads with
    | nil => intro s h; simp [mainV0] at h
    | cons hd tl ih =>
      intro s h
      rcases hd with _ | b2
      · simp [mainV0] at h
        omega
      · by_cases hb2 : b2 = 113
        · simp [mainV0, hb2] at h
          omega
        · simp only [mainV0, hb2, if_false] at h
          exact ih s h

/-- Witness for C10 at the concrete bytes a then q. -/
theorem C10_earliest_loop_witness :
    (97 : Nat) ≠ 113 ∧ mainV0 [some 97, some 113] = mainV0 [some 113] ∧
      mainV0 [some 113] = some 0 :=
  ⟨by decide, (C10_earliest_loop 97 (by decide) [some 113]).2.2.1,
    (C10_earliest_loop 97 (by decide) [some 113]).2.1 []⟩

end Kilo
